import Mathlib

/-!
Verification of the dinosaur-transport safety chatbot repository
(`llm_chatbot`).  The Python source is shallowly embedded: pure functions
become Lean functions over `List Char` / `String` / `ℚ`, external services
(the LLM reasoning backend, the SNS notification service, DynamoDB) become
oracle parameters, and fallible code returns `Except` / `Option`.
-/

namespace LlmChatbot

/-- Tri-state safety verdict (spec §3, `SafetyVerdict`). -/
inductive SafetyVerdict : Type
  | safe : SafetyVerdict
  | tooCold : SafetyVerdict
  | tooHot : SafetyVerdict
deriving DecidableEq, Repr

/-- The verdict branch of `dino_temp_safety_check`
(`react_agent.py` lines 42–47): `if current < low: too cold;
elif current > high: too hot; else: safe`.  Python floats are modelled
as rationals. -/
def dinoVerdict (current low high : ℚ) : SafetyVerdict :=
  if current < low then .tooCold
  else if high < current then .tooHot
  else .safe

/-- The three literal message strings returned by `dino_temp_safety_check`. -/
def verdictMessage : SafetyVerdict → String
  | .tooCold => "It is not safe for the dinosaurs at this temperature because it is too cold."
  | .tooHot => "It is not safe for the dinosaurs at this temperature because it is too hot."
  | .safe => "It is safe for the dinosaurs at this temperature."

/-- The character class kept by `re.sub(r'[^0-9.-]', '', s)` in
`react_agent.py` lines 38–40: digits, the decimal point, and the minus
sign survive; everything else is removed. -/
def isNumericChar (c : Char) : Bool :=
  c.isDigit || c == '.' || c == '-'

/-- Embedding of the regex substitution (removing every character that is
not a digit, a decimal point, or a minus sign). -/
def stripNonNumeric (l : List Char) : List Char :=
  l.filter isNumericChar

/-- Numeric value of a digit string (most significant first), as Python
accumulates it. -/
def digitsVal (l : List Char) : ℕ :=
  l.foldl (fun a c => 10 * a + (c.toNat - 48)) 0

/-- Unsigned part of Python's `float()` on strings drawn from the
alphabet `{0-9, '.', '-'}` (the only characters that survive
`stripNonNumeric`): an optional integer-digit run, optionally followed by
`'.'` and a fractional digit run, with at least one digit overall;
anything else (a stray `'-'`, a second `'.'`, the empty string) is a
`ValueError`, modelled as `none`. -/
def pyFloatCore (l : List Char) : Option ℚ :=
  match l.dropWhile Char.isDigit with
  | [] =>
      if (l.takeWhile Char.isDigit).isEmpty then none
      else some ((digitsVal (l.takeWhile Char.isDigit) : ℚ))
  | c :: r2 =>
      if c == '.' then
        if r2.all Char.isDigit && !((l.takeWhile Char.isDigit).isEmpty && r2.isEmpty) then
          some ((digitsVal (l.takeWhile Char.isDigit) : ℚ) +
            (digitsVal r2 : ℚ) / (10 : ℚ) ^ r2.length)
        else none
      else none

/-- Python's `float()` on strings over the stripped alphabet: an optional
leading minus sign, then an unsigned float. -/
def pyFloat (l : List Char) : Option ℚ :=
  match l with
  | [] => none
  | c :: r => if c == '-' then (pyFloatCore r).map (fun q => -q) else pyFloatCore (c :: r)

/-- Spec-side character class: a digit or the decimal point. -/
def isDigitOrDot (c : Char) : Bool :=
  c.isDigit || c == '.'

/-- Spec-side notion of a valid unsigned float string: every character is
a digit or a decimal point, at most one decimal point, and at least one
digit. -/
def coreValidFloat (m : List Char) : Bool :=
  m.all isDigitOrDot && decide (m.count '.' ≤ 1) && m.any Char.isDigit

/-- Remove an optional leading minus sign. -/
def dropSign : List Char → List Char
  | [] => []
  | c :: r => if c == '-' then r else c :: r

/-- Sign factor of an optionally signed numeric string. -/
def signOf (l : List Char) : ℚ :=
  match l with
  | [] => 1
  | c :: _ => if c == '-' then -1 else 1

/-- Spec-side notion of a valid float string: an optional leading sign
followed by a valid unsigned float string. -/
def specValidFloat (l : List Char) : Bool :=
  coreValidFloat (dropSign l)

/-- Spec-side test for a character that is not the decimal point. -/
def notDot (c : Char) : Bool :=
  !(c == '.')

/-- Spec-side value of a valid unsigned float string, read off by
splitting the string at the decimal point: integer digits before the dot,
fractional digits after it. -/
def coreFloatVal (m : List Char) : ℚ :=
  (digitsVal (m.takeWhile notDot) : ℚ) +
    (digitsVal ((m.dropWhile notDot).drop 1) : ℚ) /
      (10 : ℚ) ^ ((m.dropWhile notDot).drop 1).length

/-- Spec-side value of a valid float string: sign times the unsigned
value. -/
def specFloatVal (l : List Char) : ℚ :=
  signOf l * coreFloatVal (dropSign l)

/-- Spec-side stripping, written from the spec's words: keep digits, the
sign, and the decimal point. -/
def specStrip (l : List Char) : List Char :=
  l.filter (fun c => c.isDigit || c == '-' || c == '.')

/-- One field of `dino_temp_safety_check`'s numeric parsing
(`react_agent.py` lines 38–40): strip non-numeric characters, then
`float()`; `none` models the raised `ValueError` (the spec's
`ParseError`). -/
def dinoParseField (s : String) : Option ℚ :=
  pyFloat (stripNonNumeric s.toList)

/-- Python's `str.split(sep)` for a one-character separator: splitting
never drops or merges fields, and the empty string splits to `[""]`. -/
def splitOnChar (sep : Char) : List Char → List (List Char)
  | [] => [[]]
  | c :: cs =>
      match splitOnChar sep cs with
      | [] => [[]]
      | h :: t => if c == sep then [] :: h :: t else (c :: h) :: t

/-- Errors `dino_temp_safety_check` can raise: the tuple-unpack
`ValueError` from `a, b, c = s.split(",")` when the field count is not 3,
and the `float()` `ValueError` on a malformed field. -/
inductive DinoCheckError : Type
  | unpackError : DinoCheckError
  | parseError : DinoCheckError
deriving DecidableEq, Repr

/-- Full embedding of `dino_temp_safety_check` (`react_agent.py`
lines 22–47): split the input on commas, require exactly three fields
(else the unpack `ValueError`), strip and `float()`-parse each field
(else `ParseError`), and return the verdict message. -/
def dino_temp_safety_check (s : String) : Except DinoCheckError String :=
  let parts := splitOnChar ',' s.toList
  if parts.length = 3 then
    match pyFloat (stripNonNumeric (parts.getD 0 [])),
          pyFloat (stripNonNumeric (parts.getD 1 [])),
          pyFloat (stripNonNumeric (parts.getD 2 [])) with
    | some cur, some lo, some hi => .ok (verdictMessage (dinoVerdict cur lo hi))
    | _, _, _ => .error .parseError
  else .error .unpackError

/-- Result of the SNS `publish` call (`aws_utils.py` `aws_send_sms`): the
fields of the response dict that the caller inspects.  `messageId` is
`none` when the `MessageId` key is absent. -/
structure DeliveryResult where
  messageId : Option String
  httpStatusCode : ℕ
deriving DecidableEq, Repr

/-- Python truthiness of `sms_response.get('MessageId')`: the key is
present and its string value is non-empty. -/
def messageIdTruthy (r : DeliveryResult) : Bool :=
  match r.messageId with
  | none => false
  | some s => !(s == "")

/-- The logging decision of `dino_temp_safety_check_workflow`
(`dino_safety_flow_part4.py` lines 82–85): success only when the
`MessageId` is truthy and the HTTP status code equals 200. -/
def sendLogMessage (r : DeliveryResult) : String :=
  if messageIdTruthy r && (r.httpStatusCode == 200) then "Message sent successfully!"
  else "Failed to send message."

/-- Stage-1 prompt of the workflow (`dino_safety_flow_part4.py`
lines 42–43): ask for the safe temperature range on the given date. -/
def mkStage1Msg (date : String) : String :=
  "What is the safe temperature range of the dinosaur being transported on date " ++ date ++
    "? \n                    In your response, also give the city and name of the dinosaur as well."

/-- Stage-2 prompt (lines 48–51): current temperature in the referenced
city, given the prior context. -/
def mkStage2Msg (ctx : String) : String :=
  "Given the following context: \n                " ++ ctx ++
    "\n                what is the current temperature in fahrenheight of the referenced city? " ++
    "\n                Give the answer like this example: " ++
    "\x27The current temperature in CITY is TEMPERATURE"

/-- Stage-3 prompt (lines 55–56): is it safe at that temperature, given
the prior context. -/
def mkStage3Msg (ctx : String) : String :=
  ctx ++ "\n                    Is it safe to transport the dinosaur at that temperature?" ++
    " You do not need to do any temperature conversion."

/-- Stage-4 prompt (lines 60–63): mitigation actions, given the prior
context. -/
def mkStage4Msg (ctx : String) : String :=
  "Given this information: " ++ ctx ++
    "\n                If it is not safe to transport the dinosaur," ++
    "\n                check what specific actions we can take to to keep the relevant" ++
    " dinosaur safe based on the existing documentation. " ++
    "\n                (Make sure to reference the correct document since you are given" ++
    " the dinosaur name)"

/-- Stage-5 prompt (lines 68–76): compose the status email from the
concatenated context. -/
def mkStage5Msg (ctx : String) : String :=
  "Given this information: " ++ ctx ++
    "\n                Craft a status email to inform the manager about the dinosaur." ++
    " It should look like:" ++
    "\n                Subject: ..." ++
    "\n                " ++
    "\n                Dear Manager," ++
    "\n                ..." ++
    "\n                Best" ++
    "\n                Your Name." ++
    "\n                Your Final Answer should be the email."

/-- The default extra context of the workflow (line 39), used when the
caller passes `None`. -/
def defaultExtraContext : String :=
  "Only use a tool if needed, otherwise respond with Final Answer"

/-- The extra context actually used: the caller's, or the default when the
caller passes none. -/
def ecOf (extra_context : Option String) : String :=
  match extra_context with
  | none => defaultExtraContext
  | some s => s

/-- Observable outcome of one workflow run: the five prompts sent to the
agent executor, the composed email, and the delivery log line. -/
structure WorkflowRun where
  prompts : List String
  email : String
  logLine : String
deriving DecidableEq, Repr

/-- Embedding of `dino_temp_safety_check_workflow`
(`dino_safety_flow_part4.py` lines 12–87).  The agent executor's
`invoke({"input": p})['output']` is the oracle `backend : String → String`
and the SNS send is the oracle `sink`.  Each `invoke` input is
`input_msg ++ ". " ++ extra_context`, and each stage's context is the
space-separated concatenation of all prior stage outputs, exactly as in
the source. -/
def dino_temp_safety_check_workflow (backend : String → String)
    (sink : String → String → DeliveryResult) (date phonenumber : String)
    (extra_context : Option String) : WorkflowRun :=
  let ec := ecOf extra_context
  let p1 := mkStage1Msg date ++ ". " ++ ec
  let temperature_response := backend p1
  let p2 := mkStage2Msg temperature_response ++ ". " ++ ec
  let current_temp := backend p2
  let p3 := mkStage3Msg (temperature_response ++ " " ++ current_temp) ++ ". " ++ ec
  let safety_response := backend p3
  let p4 := mkStage4Msg (temperature_response ++ " " ++ current_temp ++ " " ++ safety_response) ++
    ". " ++ ec
  let action_response := backend p4
  let message_info := temperature_response ++ " " ++ current_temp ++ " " ++ safety_response ++
    " " ++ action_response
  let p5 := mkStage5Msg message_info ++ ". " ++ ec
  let email := backend p5
  let sms_response := sink phonenumber email
  { prompts := [p1, p2, p3, p4, p5], email := email, logLine := sendLogMessage sms_response }

/-- Observable outcome of the agent-exposed workflow tool: the five
prompts and the returned email (the tool sends no SMS). -/
structure WorkflowToolRun where
  prompts : List String
  email : String
deriving DecidableEq, Repr

/-- Stage-1 prompt of the agent-exposed copy
(`react_agent.py` lines 174–175); the source text duplicates
`dino_safety_flow_part4.py` verbatim. -/
def mkStage1MsgTool (date : String) : String :=
  "What is the safe temperature range of the dinosaur being transported on date " ++ date ++
    "? \n                    In your response, also give the city and name of the dinosaur as well."

/-- Stage-2 prompt of the agent-exposed copy (lines 180–183). -/
def mkStage2MsgTool (ctx : String) : String :=
  "Given the following context: \n                " ++ ctx ++
    "\n                what is the current temperature in fahrenheight of the referenced city? " ++
    "\n                Give the answer like this example: " ++
    "\x27The current temperature in CITY is TEMPERATURE"

/-- Stage-3 prompt of the agent-exposed copy (lines 187–188). -/
def mkStage3MsgTool (ctx : String) : String :=
  ctx ++ "\n                    Is it safe to transport the dinosaur at that temperature?" ++
    " You do not need to do any temperature conversion."

/-- Stage-4 prompt of the agent-exposed copy (lines 192–195). -/
def mkStage4MsgTool (ctx : String) : String :=
  "Given this information: " ++ ctx ++
    "\n                If it is not safe to transport the dinosaur," ++
    "\n                check what specific actions we can take to to keep the relevant" ++
    " dinosaur safe based on the existing documentation. " ++
    "\n                (Make sure to reference the correct document since you are given" ++
    " the dinosaur name)"

/-- Stage-5 prompt of the agent-exposed copy (lines 200–208). -/
def mkStage5MsgTool (ctx : String) : String :=
  "Given this information: " ++ ctx ++
    "\n                Craft a status email to inform the manager about the dinosaur." ++
    " It should look like:" ++
    "\n                Subject: ..." ++
    "\n                " ++
    "\n                Dear Manager," ++
    "\n                ..." ++
    "\n                Best" ++
    "\n                Your Name." ++
    "\n                Your Final Answer should be the email."

/-- Embedding of `dino_temp_safety_check_workflow_tool`
(`react_agent.py` lines 153–211): same five-stage chain with a fixed
extra context, returning the email and sending nothing. -/
def dino_temp_safety_check_workflow_tool (backend : String → String)
    (date : String) : WorkflowToolRun :=
  let ec := "Only use a tool if needed, otherwise respond with Final Answer"
  let p1 := mkStage1MsgTool date ++ ". " ++ ec
  let temperature_response := backend p1
  let p2 := mkStage2MsgTool temperature_response ++ ". " ++ ec
  let current_temp := backend p2
  let p3 := mkStage3MsgTool (temperature_response ++ " " ++ current_temp) ++ ". " ++ ec
  let safety_response := backend p3
  let p4 := mkStage4MsgTool (temperature_response ++ " " ++ current_temp ++ " " ++
    safety_response) ++ ". " ++ ec
  let action_response := backend p4
  let message_info := temperature_response ++ " " ++ current_temp ++ " " ++ safety_response ++
    " " ++ action_response
  let p5 := mkStage5MsgTool message_info ++ ". " ++ ec
  let email := backend p5
  { prompts := [p1, p2, p3, p4, p5], email := email }

/-- Space-separated concatenation of a list of stage outputs (the spec's
"literal concatenation of all prior stage final answers"). -/
def joinWithSpaces : List String → String
  | [] => ""
  | [a] => a
  | a :: rest => a ++ " " ++ joinWithSpaces rest

/-- Spec-side restatement of the five-stage chain: stage i's context is
the space-joined concatenation of the outputs of all prior stages, and
all five prompts are issued unconditionally. -/
def specStagePrompts (backend : String → String) (date ec : String) : List String :=
  let p1 := mkStage1Msg date ++ ". " ++ ec
  let o1 := backend p1
  let p2 := mkStage2Msg (joinWithSpaces [o1]) ++ ". " ++ ec
  let o2 := backend p2
  let p3 := mkStage3Msg (joinWithSpaces [o1, o2]) ++ ". " ++ ec
  let o3 := backend p3
  let p4 := mkStage4Msg (joinWithSpaces [o1, o2, o3]) ++ ". " ++ ec
  let o4 := backend p4
  let p5 := mkStage5Msg (joinWithSpaces [o1, o2, o3, o4]) ++ ". " ++ ec
  [p1, p2, p3, p4, p5]

/-- One step of `add_to_history` (`streamlit_chatbot.py` lines 20–38):
append the new pair, then keep only the last three pairs. -/
def add_to_history (history : List (String × String))
    (user_message bot_response : String) : List (String × String) :=
  let extended := history ++ [(user_message, bot_response)]
  if 3 < extended.length then extended.drop (extended.length - 3) else extended

/-- The history after a sequence of additions, starting from the empty
session state. -/
def historyAfter (seq : List (String × String)) : List (String × String) :=
  seq.foldl (fun h p => add_to_history h p.1 p.2) []

/-- The last three elements of a list (`history[-3:]`). -/
def lastThree (l : List (String × String)) : List (String × String) :=
  l.drop (l.length - 3)

/-- The table description returned by DynamoDB `describe_table`; only its
status field is read. -/
structure TableDescription where
  tableStatus : String
deriving DecidableEq, Repr

/-- Outcome of the `describe_table` call: success, or a `ClientError`
carrying an error code. -/
inductive DescribeTableOutcome : Type
  | ok : TableDescription → DescribeTableOutcome
  | clientError : String → DescribeTableOutcome
deriving DecidableEq, Repr

/-- Embedding of `check_table_exists` (`dynamo_db.py` lines 7–27):
`describe_table` success returns `true`; a `ClientError` with code
`ResourceNotFoundException` returns `false`; any other `ClientError` is
re-raised (modelled as `.error code`). -/
def check_table_exists (outcome : DescribeTableOutcome) : Except String Bool :=
  match outcome with
  | .ok _ => .ok true
  | .clientError code =>
      if code == "ResourceNotFoundException" then .ok false
      else .error code

/-- One decision of the reasoning backend: produce the final answer, or
select a tool with an input. -/
inductive AgentAction : Type
  | finish : String → AgentAction
  | act : String → String → AgentAction
deriving DecidableEq, Repr

/-- Failure of a dispatch-loop run. -/
inductive AgentLoopError : Type
  | maxIterationsExceeded : AgentLoopError
deriving DecidableEq, Repr

/-- Modelled from the spec: the AgentDispatchLoop of §4.3.  The loop
itself lives in the external agent framework — `OpenAI_agent`
(`react_agent.py` lines 109–132) only assembles it — so it is modelled
from the spec's state machine: the opaque reasoning backend either
finishes with an answer or selects a tool whose observation is appended
to the transcript, bounded by an iteration budget; an exhausted budget is
`MaxIterationsExceeded`. -/
def runDispatchLoop (next_step : String → AgentAction)
    (invokeTool : String → String → String) : ℕ → String → Except AgentLoopError String
  | 0, _ => .error .maxIterationsExceeded
  | n + 1, transcript =>
      match next_step transcript with
      | .finish answer => .ok answer
      | .act toolName toolInput =>
          runDispatchLoop next_step invokeTool n (transcript ++ invokeTool toolName toolInput)

/-- A registered tool: the fields of the spec's data model that the
registry contract observes. -/
structure AgentTool where
  name : String
  description : String
deriving DecidableEq, Repr

/-- Errors of the registry contract (spec §4.1). -/
inductive RegistryError : Type
  | duplicateNameError : RegistryError
  | unknownToolError : RegistryError
deriving DecidableEq, Repr

/-- Modelled from the spec: `ToolRegistry.register` of §4.1.  The source
(`get_all_tools`, `react_agent.py` lines 87–105) only builds a plain list
and delegates registration to the external framework, so the contract is
modelled from the spec: registering a colliding name fails with
`DuplicateNameError`. -/
def registerTool (reg : List AgentTool) (t : AgentTool) :
    Except RegistryError (List AgentTool) :=
  if reg.any (fun u => u.name == t.name) then .error .duplicateNameError
  else .ok (reg ++ [t])

/-- Modelled from the spec: `ToolRegistry.resolve` of §4.1: resolving an
unregistered name fails with `UnknownToolError`. -/
def resolveTool (reg : List AgentTool) (n : String) : Except RegistryError AgentTool :=
  match reg.find? (fun u => u.name == n) with
  | some t => .ok t
  | none => .error .unknownToolError

lemma specStrip_eq_stripNonNumeric (l : List Char) :
    specStrip l = stripNonNumeric l := by
  unfold specStrip stripNonNumeric
  refine List.filter_congr (fun c _ => ?_)
  unfold isNumericChar
  cases hd : c.isDigit <;> cases h1 : (c == '-') <;> cases h2 : (c == '.') <;> simp [hd, h1, h2]

lemma count_dot_eq_zero_of_all_digit {m : List Char} (h : ∀ a ∈ m, a.isDigit) :
    m.count '.' = 0 := by
  refine List.count_eq_zero.mpr (fun hm => ?_)
  have := h _ hm
  simp at this

lemma dotChar_not_digit : ('.' : Char).isDigit = false := by decide

lemma coreValidFloat_iff (m : List Char) :
    coreValidFloat m = true ↔
      ((∀ a ∈ m, isDigitOrDot a = true) ∧ m.count '.' ≤ 1 ∧ ∃ a ∈ m, a.isDigit = true) := by
  unfold coreValidFloat
  simp [List.all_eq_true, List.any_eq_true]
  tauto

lemma isDigitOrDot_of_digit {c : Char} (h : c.isDigit = true) : isDigitOrDot c = true := by
  simp [isDigitOrDot, h]

lemma dropWhile_cons_head_false {α : Type} {p : α → Bool} :
    ∀ {l : List α} {c : α} {cs : List α}, l.dropWhile p = c :: cs → p c = false := by
  intro l
  induction l with
  | nil => intro c cs h; simp at h
  | cons x xs ih =>
    intro c cs h
    rw [List.dropWhile_cons] at h
    by_cases hx : p x = true
    · rw [if_pos hx] at h
      exact ih h
    · rw [if_neg hx] at h
      injection h with h1 h2
      subst h1
      simpa using hx

lemma pyFloatCore_of_dropWhile_nil {l : List Char}
    (h : l.dropWhile Char.isDigit = []) :
    pyFloatCore l =
      if (l.takeWhile Char.isDigit).isEmpty then none
      else some ((digitsVal (l.takeWhile Char.isDigit) : ℚ)) := by
  unfold pyFloatCore
  rw [h]

lemma pyFloatCore_of_dropWhile_cons {l : List Char} {c : Char} {r2 : List Char}
    (h : l.dropWhile Char.isDigit = c :: r2) :
    pyFloatCore l =
      if c == '.' then
        if r2.all Char.isDigit && !((l.takeWhile Char.isDigit).isEmpty && r2.isEmpty) then
          some ((digitsVal (l.takeWhile Char.isDigit) : ℚ) +
            (digitsVal r2 : ℚ) / (10 : ℚ) ^ r2.length)
        else none
      else none := by
  unfold pyFloatCore
  rw [h]

lemma pyFloatCore_isSome_iff (l : List Char) :
    (pyFloatCore l).isSome = true ↔ coreValidFloat l = true := by
  rw [coreValidFloat_iff]
  have hdec := List.takeWhile_append_dropWhile Char.isDigit l
  have hmemtw : ∀ a ∈ l.takeWhile Char.isDigit, a.isDigit = true := fun a ha =>
    List.mem_takeWhile_imp ha
  rcases hr : l.dropWhile Char.isDigit with _ | ⟨c, r2⟩
  · have hall : ∀ a ∈ l, a.isDigit = true := List.dropWhile_eq_nil_iff.mp hr
    have hself : l.takeWhile Char.isDigit = l := List.takeWhile_eq_self_iff.mpr hall
    rw [pyFloatCore_of_dropWhile_nil hr, hself]
    rcases l with _ | ⟨x, xs⟩
    · simp
    · have hx := hall x (by simp)
      have hcnt : (x :: xs).count '.' = 0 := count_dot_eq_zero_of_all_digit hall
      simp only [List.isEmpty_cons, Bool.false_eq_true, if_false, Option.isSome_some,
        true_iff]
      exact ⟨fun a ha => isDigitOrDot_of_digit (hall a ha), by omega, x, by simp, hx⟩
  · have hc : c.isDigit = false := dropWhile_cons_head_false hr
    rw [hr] at hdec
    rw [pyFloatCore_of_dropWhile_cons hr]
    by_cases hcdot : c = '.'
    · subst hcdot
      rw [if_pos (by simp)]
      have hcnt_tw : (l.takeWhile Char.isDigit).count '.' = 0 :=
        count_dot_eq_zero_of_all_digit hmemtw
      constructor
      · intro hsome
        by_cases hcond :
            (r2.all Char.isDigit && !((l.takeWhile Char.isDigit).isEmpty && r2.isEmpty)) = true
        · have hr2 : ∀ a ∈ r2, a.isDigit = true := by
            have := (Bool.and_eq_true _ _).mp hcond
            exact List.all_eq_true.mp this.1
          have hne : ¬((l.takeWhile Char.isDigit) = [] ∧ r2 = []) := by
            rintro ⟨h1, h2⟩
            rw [h1, h2] at hcond
            simp at hcond
          refine ⟨?_, ?_, ?_⟩
          · intro a ha
            rw [← hdec] at ha
            rcases List.mem_append.mp ha with ha | ha
            · exact isDigitOrDot_of_digit (hmemtw a ha)
            · rcases List.mem_cons.mp ha with rfl | ha
              · simp [isDigitOrDot]
              · exact isDigitOrDot_of_digit (hr2 a ha)
          · rw [← hdec, List.count_append, List.count_cons_self, hcnt_tw,
              count_dot_eq_zero_of_all_digit hr2]
          · rcases htw : l.takeWhile Char.isDigit with _ | ⟨y, ys⟩
            · rcases hr2nil : r2 with _ | ⟨z, zs⟩
              · exact absurd ⟨htw, hr2nil⟩ hne
              · exact ⟨z, by rw [← hdec, htw, hr2nil]; simp,
                  hr2 z (by rw [hr2nil]; simp)⟩
            · exact ⟨y, by rw [← hdec, htw]; simp,
                hmemtw y (by rw [htw]; simp)⟩
        · rw [if_neg hcond] at hsome
          simp at hsome
      · rintro ⟨hdot, hcnt, a, ha, hadig⟩
        have hr2 : ∀ b ∈ r2, b.isDigit = true := by
          intro b hb
          have hmem : b ∈ l := by rw [← hdec]; simp [hb]
          have hbd := hdot b hmem
          simp only [isDigitOrDot, Bool.or_eq_true, beq_iff_eq] at hbd
          rcases hbd with hbd | rfl
          · exact hbd
          · exfalso
            have : 1 ≤ r2.count '.' := List.one_le_count_iff.mpr hb
            rw [← hdec, List.count_append, List.count_cons_self, hcnt_tw] at hcnt
            omega
        have hne : ¬((l.takeWhile Char.isDigit) = [] ∧ r2 = []) := by
          rintro ⟨h1, h2⟩
          rw [← hdec, h1, h2] at ha
          rcases List.mem_singleton.mp (by simpa using ha) with rfl
          rw [dotChar_not_digit] at hadig
          exact absurd hadig (by simp)
        rw [if_pos]
        · simp
        · have h1 : r2.all Char.isDigit = true := List.all_eq_true.mpr hr2
          rcases htw : l.takeWhile Char.isDigit with _ | ⟨y, ys⟩
          · have hr2ne : r2 ≠ [] := fun hh => hne ⟨htw, hh⟩
            simp [h1, hr2ne]
          · simp [h1]
    · rw [if_neg (by simpa using hcdot)]
      simp only [Option.isSome_none, Bool.false_eq_true, false_iff]
      rintro ⟨hdot, -, -⟩
      have hcmem : c ∈ l := by rw [← hdec]; simp
      have := hdot c hcmem
      simp only [isDigitOrDot, Bool.or_eq_true, beq_iff_eq] at this
      rcases this with h | h
      · rw [hc] at h; exact absurd h (by simp)
      · exact absurd h hcdot

lemma notDot_of_digit {c : Char} (h : c.isDigit = true) : notDot c = true := by
  unfold notDot
  rcases hcc : (c == '.') with _ | _
  · rfl
  · have : c = '.' := by simpa using hcc
    subst this
    rw [dotChar_not_digit] at h
    exact absurd h (by simp)

lemma pyFloatCore_val {l : List Char} (h : coreValidFloat l = true) :
    pyFloatCore l = some (coreFloatVal l) := by
  rw [coreValidFloat_iff] at h
  obtain ⟨hdot, hcnt, a, ha, hadig⟩ := h
  have hdec := List.takeWhile_append_dropWhile Char.isDigit l
  have hmemtw : ∀ a ∈ l.takeWhile Char.isDigit, a.isDigit = true := fun a ha =>
    List.mem_takeWhile_imp ha
  rcases hr : l.dropWhile Char.isDigit with _ | ⟨c, r2⟩
  · have hall : ∀ a ∈ l, a.isDigit = true := List.dropWhile_eq_nil_iff.mp hr
    have hself : l.takeWhile Char.isDigit = l := List.takeWhile_eq_self_iff.mpr hall
    rw [pyFloatCore_of_dropWhile_nil hr, hself]
    have hlne : l ≠ [] := by rintro rfl; simp at ha
    rw [if_neg (by simpa using hlne)]
    congr 1
    unfold coreFloatVal
    have htw : l.takeWhile notDot = l :=
      List.takeWhile_eq_self_iff.mpr (fun x hx => notDot_of_digit (hall x hx))
    have hdw : l.dropWhile notDot = [] :=
      List.dropWhile_eq_nil_iff.mpr (fun x hx => notDot_of_digit (hall x hx))
    rw [htw, hdw]
    show (digitsVal l : ℚ) = (digitsVal l : ℚ) + (digitsVal [] : ℚ) / (10 : ℚ) ^ (0 : ℕ)
    simp [digitsVal]
  · have hc : c.isDigit = false := dropWhile_cons_head_false hr
    rw [hr] at hdec
    have hcdot : c = '.' := by
      have hcmem : c ∈ l := by rw [← hdec]; simp
      have hd := hdot c hcmem
      simp only [isDigitOrDot, Bool.or_eq_true, beq_iff_eq] at hd
      rcases hd with hd | hd
      · rw [hc] at hd; exact absurd hd (by simp)
      · exact hd
    subst hcdot
    rw [pyFloatCore_of_dropWhile_cons hr, if_pos (by simp)]
    have hcnt_tw : (l.takeWhile Char.isDigit).count '.' = 0 :=
      count_dot_eq_zero_of_all_digit hmemtw
    have hr2 : ∀ b ∈ r2, b.isDigit = true := by
      intro b hb
      have hmem : b ∈ l := by rw [← hdec]; simp [hb]
      have hbd := hdot b hmem
      simp only [isDigitOrDot, Bool.or_eq_true, beq_iff_eq] at hbd
      rcases hbd with hbd | rfl
      · exact hbd
      · exfalso
        have h1 : 1 ≤ r2.count '.' := List.one_le_count_iff.mpr hb
        rw [← hdec, List.count_append, List.count_cons_self, hcnt_tw] at hcnt
        omega
    have hne : ¬((l.takeWhile Char.isDigit) = [] ∧ r2 = []) := by
      rintro ⟨h1, h2⟩
      rw [← hdec, h1, h2] at ha
      rcases List.mem_singleton.mp (by simpa using ha) with rfl
      rw [dotChar_not_digit] at hadig
      exact absurd hadig (by simp)
    rw [if_pos]
    · congr 1
      unfold coreFloatVal
      have hpos : ∀ x ∈ l.takeWhile Char.isDigit, notDot x = true := fun x hx =>
        notDot_of_digit (hmemtw x hx)
      have hdotneg : ¬ notDot '.' = true := by simp [notDot]
      have htw : l.takeWhile notDot = l.takeWhile Char.isDigit := by
        conv_lhs => rw [← hdec]
        rw [List.takeWhile_append_of_pos hpos, List.takeWhile_cons_of_neg hdotneg,
          List.append_nil]
      have hdw : l.dropWhile notDot = '.' :: r2 := by
        conv_lhs => rw [← hdec]
        rw [List.dropWhile_append_of_pos hpos, List.dropWhile_cons_of_neg hdotneg]
      rw [htw, hdw]
      simp
    · have h1 : r2.all Char.isDigit = true := List.all_eq_true.mpr hr2
      rcases htw : l.takeWhile Char.isDigit with _ | ⟨y, ys⟩
      · have hr2ne : r2 ≠ [] := fun hh => hne ⟨htw, hh⟩
        simp [h1, hr2ne]
      · simp [h1]

lemma pyFloat_isSome_iff (l : List Char) :
    (pyFloat l).isSome = true ↔ specValidFloat l = true := by
  rcases l with _ | ⟨c, r⟩
  · simp [pyFloat, specValidFloat, dropSign, coreValidFloat]
  · simp only [pyFloat, specValidFloat, dropSign]
    by_cases hc : (c == '-') = true
    · rw [if_pos hc, if_pos hc, Option.isSome_map']
      exact pyFloatCore_isSome_iff r
    · rw [if_neg hc, if_neg hc]
      exact pyFloatCore_isSome_iff (c :: r)

lemma pyFloat_val {l : List Char} (h : specValidFloat l = true) :
    pyFloat l = some (specFloatVal l) := by
  unfold specValidFloat at h
  rcases l with _ | ⟨c, r⟩
  · simp [dropSign, coreValidFloat] at h
  · simp only [pyFloat, specFloatVal, signOf, dropSign]
    simp only [dropSign] at h
    split_ifs at h ⊢ with hc
    · rw [pyFloatCore_val h]
      simp [neg_one_mul]
    · rw [pyFloatCore_val h, one_mul]

end LlmChatbot

namespace LlmChatbot

/-- C1: for parsed readings with `low ≤ high`, the safety evaluation is
SAFE iff `low ≤ current ≤ high`, TOO_COLD iff `current < low`, TOO_HOT
iff `current > high`; both boundary cases are SAFE. -/
theorem dinoVerdict_spec (current low high : ℚ) (hlh : low ≤ high) :
    (dinoVerdict current low high = .safe ↔ low ≤ current ∧ current ≤ high)
    ∧ (dinoVerdict current low high = .tooCold ↔ current < low)
    ∧ (dinoVerdict current low high = .tooHot ↔ high < current)
    ∧ dinoVerdict low low high = .safe
    ∧ dinoVerdict high low high = .safe := by
  have hsafe : ∀ c, low ≤ c → c ≤ high → dinoVerdict c low high = .safe := by
    intro c h1 h2
    unfold dinoVerdict
    rw [if_neg (not_lt.mpr h1), if_neg (not_lt.mpr h2)]
  refine ⟨⟨?_, fun h => hsafe _ h.1 h.2⟩, ⟨?_, ?_⟩, ⟨?_, ?_⟩,
    hsafe _ le_rfl hlh, hsafe _ hlh le_rfl⟩
  · intro h
    unfold dinoVerdict at h
    by_cases h1 : current < low
    · rw [if_pos h1] at h
      exact absurd h (by simp)
    · rw [if_neg h1] at h
      by_cases h2 : high < current
      · rw [if_pos h2] at h
        exact absurd h (by simp)
      · exact ⟨not_lt.mp h1, not_lt.mp h2⟩
  · intro h
    unfold dinoVerdict at h
    by_cases h1 : current < low
    · exact h1
    · rw [if_neg h1] at h
      by_cases h2 : high < current
      · rw [if_pos h2] at h
        exact absurd h (by simp)
      · rw [if_neg h2] at h
        exact absurd h (by simp)
  · intro h1
    unfold dinoVerdict
    rw [if_pos h1]
  · intro h
    unfold dinoVerdict at h
    by_cases h1 : current < low
    · rw [if_pos h1] at h
      exact absurd h (by simp)
    · rw [if_neg h1] at h
      by_cases h2 : high < current
      · exact h2
      · rw [if_neg h2] at h
        exact absurd h (by simp)
  · intro h2
    unfold dinoVerdict
    rw [if_neg (not_lt.mpr (le_of_lt (lt_of_le_of_lt hlh h2))), if_pos h2]

/-- Witness for `dinoVerdict_spec` at `(70, 65, 85)`. -/
theorem dinoVerdict_spec_witness :
    (dinoVerdict 70 65 85 = .safe ↔ (65 : ℚ) ≤ 70 ∧ (70 : ℚ) ≤ 85)
    ∧ (dinoVerdict 70 65 85 = .tooCold ↔ (70 : ℚ) < 65)
    ∧ (dinoVerdict 70 65 85 = .tooHot ↔ (85 : ℚ) < 70)
    ∧ dinoVerdict 65 65 85 = .safe
    ∧ dinoVerdict 85 65 85 = .safe :=
  dinoVerdict_spec 70 65 85 (by norm_num)

/-- C2: the numeric parsing of the temperature safety evaluator raises a
ParseError iff, after stripping every character except digits, the sign,
and the decimal point, the residual is not a valid float; when the
residual is a valid float, parsing succeeds and yields that float. -/
theorem dinoParseField_spec (s : String) :
    (dinoParseField s = none ↔ specValidFloat (specStrip s.toList) = false)
    ∧ (specValidFloat (specStrip s.toList) = true →
        dinoParseField s = some (specFloatVal (specStrip s.toList))) := by
  rw [specStrip_eq_stripNonNumeric]
  constructor
  · constructor
    · intro hnone
      rcases hval : specValidFloat (stripNonNumeric s.toList) with _ | _
      · rfl
      · exfalso
        have hs := (pyFloat_isSome_iff (stripNonNumeric s.toList)).mpr hval
        unfold dinoParseField at hnone
        rw [hnone] at hs
        exact absurd hs (by simp)
    · intro hval
      unfold dinoParseField
      rcases hopt : pyFloat (stripNonNumeric s.toList) with _ | q
      · rfl
      · exfalso
        have h2 : (pyFloat (stripNonNumeric s.toList)).isSome = true := by
          rw [hopt]; rfl
        have h3 := (pyFloat_isSome_iff (stripNonNumeric s.toList)).mp h2
        rw [hval] at h3
        exact absurd h3 (by simp)
  · intro h
    exact pyFloat_val h

/-- Witness for `dinoParseField_spec`: decorated input parses to its
numeric residue, and a residual with no digits raises ParseError. -/
theorem dinoParseField_spec_witness :
    dinoParseField "98.6°F" = some (specFloatVal (specStrip "98.6°F".toList))
    ∧ dinoParseField "abc" = none :=
  ⟨(dinoParseField_spec "98.6°F").2 (by decide),
   (dinoParseField_spec "abc").1.mpr (by decide)⟩

lemma splitOnChar_ne_nil (sep : Char) : ∀ l : List Char, splitOnChar sep l ≠ [] := by
  intro l
  induction l with
  | nil => simp [splitOnChar]
  | cons c cs ih =>
    rcases h : splitOnChar sep cs with _ | ⟨hd, tl⟩
    · exact absurd h ih
    · simp only [splitOnChar, h]
      split_ifs <;> simp

lemma splitOnChar_length (sep : Char) :
    ∀ l : List Char, (splitOnChar sep l).length = l.count sep + 1 := by
  intro l
  induction l with
  | nil => simp [splitOnChar]
  | cons c cs ih =>
    rcases h : splitOnChar sep cs with _ | ⟨hd, tl⟩
    · exact absurd h (splitOnChar_ne_nil sep cs)
    · rw [h] at ih
      simp only [List.length_cons] at ih
      by_cases hc : (c == sep) = true
      · simp [splitOnChar, h, hc, List.count_cons]
        omega
      · simp [splitOnChar, h, hc, List.count_cons]
        omega

/-- C10: the evaluator's input must split into exactly three
comma-separated fields: any input with other than exactly two commas
raises the unpack error (before any numeric parsing, so no verdict and no
parse error is produced), and with exactly two commas the unpack error
never occurs. -/
theorem dino_temp_safety_check_unpack (s : String) :
    (s.toList.count ',' ≠ 2 → dino_temp_safety_check s = .error .unpackError)
    ∧ (s.toList.count ',' = 2 → dino_temp_safety_check s ≠ .error .unpackError) := by
  have hlen : (splitOnChar ',' s.toList).length = s.toList.count ',' + 1 :=
    splitOnChar_length ',' s.toList
  constructor
  · intro h
    unfold dino_temp_safety_check
    rw [if_neg (by omega)]
  · intro h
    unfold dino_temp_safety_check
    rw [if_pos (by omega)]
    rcases pyFloat (stripNonNumeric ((splitOnChar ',' s.toList).getD 0 [])) with _ | a <;>
      rcases pyFloat (stripNonNumeric ((splitOnChar ',' s.toList).getD 1 [])) with _ | b <;>
      rcases pyFloat (stripNonNumeric ((splitOnChar ',' s.toList).getD 2 [])) with _ | c <;>
      simp

/-- Witness for `dino_temp_safety_check_unpack`: a one-field input raises
the unpack error; a three-field input does not. -/
theorem dino_temp_safety_check_unpack_witness :
    dino_temp_safety_check "70" = .error .unpackError
    ∧ dino_temp_safety_check "70,65,85" ≠ .error .unpackError :=
  ⟨(dino_temp_safety_check_unpack "70").1 (by decide),
   (dino_temp_safety_check_unpack "70,65,85").2 (by decide)⟩

lemma add_to_history_eq (h : List (String × String)) (u b : String) :
    add_to_history h u b = lastThree (h ++ [(u, b)]) := by
  unfold add_to_history lastThree
  show (if 3 < (h ++ [(u, b)]).length then
      List.drop ((h ++ [(u, b)]).length - 3) (h ++ [(u, b)])
    else h ++ [(u, b)]) = List.drop ((h ++ [(u, b)]).length - 3) (h ++ [(u, b)])
  split_ifs with hlen
  · rfl
  · rw [Nat.sub_eq_zero_of_le (by omega), List.drop_zero]

lemma lastThree_append (x y : List (String × String)) :
    lastThree (lastThree x ++ y) = lastThree (x ++ y) := by
  unfold lastThree
  rw [← List.drop_append_of_le_length (by omega : x.length - 3 ≤ x.length)]
  rw [List.drop_drop]
  congr 1
  simp only [List.length_drop, List.length_append]
  omega

lemma foldl_add_to_history (seq : List (String × String)) :
    ∀ h : List (String × String), h.length ≤ 3 →
      seq.foldl (fun acc p => add_to_history acc p.1 p.2) h = lastThree (h ++ seq) := by
  induction seq with
  | nil =>
    intro h hle
    simp only [List.foldl_nil, List.append_nil]
    unfold lastThree
    rw [Nat.sub_eq_zero_of_le hle, List.drop_zero]
  | cons p rest ih =>
    intro h hle
    rw [List.foldl_cons, add_to_history_eq]
    have hlen : (lastThree (h ++ [p])).length ≤ 3 := by
      unfold lastThree
      simp only [List.length_drop, List.length_append]
      omega
    rw [ih _ hlen, lastThree_append]
    congr 1
    simp

lemma historyAfter_eq (seq : List (String × String)) :
    historyAfter seq = lastThree seq := by
  unfold historyAfter
  have h := foldl_add_to_history seq [] (by simp)
  simpa using h

/-- C6: after every sequence of additions the chat history is exactly the
last three pairs added — hence it never holds more than 3 pairs, the
newest pair is always retained, and when a 4th pair is added to a full
history the oldest pair is the one evicted (FIFO eviction, capacity 3). -/
theorem add_to_history_fifo (seq : List (String × String)) (p : String × String) :
    historyAfter seq = lastThree seq
    ∧ (historyAfter seq).length ≤ 3
    ∧ (historyAfter (seq ++ [p])).getLast? = some p
    ∧ ((historyAfter seq).length = 3 →
        historyAfter (seq ++ [p]) = (historyAfter seq).tail ++ [p]) := by
  have he := historyAfter_eq seq
  have hep := historyAfter_eq (seq ++ [p])
  refine ⟨he, ?_, ?_, ?_⟩
  · rw [he]
    unfold lastThree
    simp only [List.length_drop]
    omega
  · rw [hep]
    unfold lastThree
    simp only [List.length_append, List.length_cons, List.length_nil]
    rw [List.drop_append_of_le_length (by omega)]
    rw [List.getLast?_concat]
  · intro h3
    rw [he] at h3
    unfold lastThree at h3
    simp only [List.length_drop] at h3
    rw [hep, he]
    unfold lastThree
    simp only [List.length_append, List.length_cons, List.length_nil]
    rw [List.drop_append_of_le_length (by omega), List.tail_drop]
    congr 2
    omega

/-- Witness for `add_to_history_fifo` at a concrete 3-pair history and a
4th addition. -/
theorem add_to_history_fifo_witness :
    (historyAfter [("u1", "b1"), ("u2", "b2"), ("u3", "b3")]).length = 3
    ∧ historyAfter ([("u1", "b1"), ("u2", "b2"), ("u3", "b3")] ++ [("u4", "b4")]) =
        (historyAfter [("u1", "b1"), ("u2", "b2"), ("u3", "b3")]).tail ++ [("u4", "b4")] :=
  ⟨by decide,
   (add_to_history_fifo [("u1", "b1"), ("u2", "b2"), ("u3", "b3")] ("u4", "b4")).2.2.2
     (by decide)⟩

/-- C7: the workflow's delivery logging reports success iff a message
identifier is present (a non-empty `MessageId`) and the transport status
is HTTP 200; in every other case it reports failure. -/
theorem sendLogMessage_spec (r : DeliveryResult) :
    (sendLogMessage r = "Message sent successfully!" ↔
      (∃ s, r.messageId = some s ∧ s ≠ "") ∧ r.httpStatusCode = 200)
    ∧ (sendLogMessage r = "Message sent successfully!" ∨
        sendLogMessage r = "Failed to send message.") := by
  have hiff : (messageIdTruthy r && (r.httpStatusCode == 200)) = true ↔
      ((∃ s, r.messageId = some s ∧ s ≠ "") ∧ r.httpStatusCode = 200) := by
    rw [Bool.and_eq_true]
    constructor
    · rintro ⟨h1, h2⟩
      refine ⟨?_, by simpa using h2⟩
      unfold messageIdTruthy at h1
      rcases hm : r.messageId with _ | s
      · rw [hm] at h1
        simp at h1
      · rw [hm] at h1
        refine ⟨s, rfl, ?_⟩
        simpa using h1
    · rintro ⟨⟨s, hm, hs⟩, h2⟩
      constructor
      · unfold messageIdTruthy
        rw [hm]
        simpa using hs
      · simpa using h2
  constructor
  · unfold sendLogMessage
    split_ifs with hcond
    · exact ⟨fun _ => hiff.mp hcond, fun _ => rfl⟩
    · constructor
      · intro h
        exact absurd h (by decide)
      · intro h
        exact absurd (hiff.mpr h) hcond
  · unfold sendLogMessage
    split_ifs
    · exact Or.inl rfl
    · exact Or.inr rfl

/-- C8: the table-existence check returns true on an existing table,
returns false without raising exactly on the documented not-found error
code, and re-raises every other client error. -/
theorem check_table_exists_spec (d : TableDescription) (code : String) :
    check_table_exists (.ok d) = .ok true
    ∧ check_table_exists (.clientError "ResourceNotFoundException") = .ok false
    ∧ check_table_exists (.clientError code) =
        (if code = "ResourceNotFoundException" then .ok false else .error code) := by
  refine ⟨rfl, rfl, ?_⟩
  by_cases h : code = "ResourceNotFoundException"
  · subst h
    rw [if_pos rfl]
    rfl
  · rw [if_neg h]
    show (if (code == "ResourceNotFoundException") = true then (Except.ok false : Except String Bool)
      else Except.error code) = Except.error code
    rw [if_neg (by simpa using h)]

/-- C3: every workflow run executes all five stages unconditionally in the
fixed order: the prompts sent to the reasoning backend are exactly the
five stage prompts, each built from the space-joined concatenation of all
prior stage final answers (so stage 4 is queried for every backend,
including one whose stage-3 verdict is SAFE), and the stage-5 composition
input is the concatenation of the stage 1–4 outputs. -/
theorem workflow_stage_structure (backend : String → String)
    (sink : String → String → DeliveryResult) (date phonenumber : String)
    (extra_context : Option String) :
    (dino_temp_safety_check_workflow backend sink date phonenumber extra_context).prompts =
      specStagePrompts backend date (ecOf extra_context)
    ∧ (dino_temp_safety_check_workflow backend sink date phonenumber
        extra_context).prompts.length = 5
    ∧ (dino_temp_safety_check_workflow backend sink date phonenumber extra_context).email =
        backend ((specStagePrompts backend date (ecOf extra_context)).getD 4 "") := by
  refine ⟨?_, ?_, ?_⟩
  · simp [dino_temp_safety_check_workflow, specStagePrompts, joinWithSpaces,
      String.append_assoc]
  · simp [dino_temp_safety_check_workflow]
  · simp [dino_temp_safety_check_workflow, specStagePrompts, joinWithSpaces,
      String.append_assoc]

/-- C4: the standalone workflow and the agent-exposed workflow tool are
equivalent on the shared portion: with the same reasoning backend they
build the same five stage prompts from the same concatenated contexts and
return the same composed email (the tool fixes the extra context to the
standalone default and sends no SMS, so the sink does not matter). -/
theorem workflow_tool_equivalence (backend : String → String)
    (sink : String → String → DeliveryResult) (date phonenumber : String) :
    (dino_temp_safety_check_workflow_tool backend date).prompts =
      (dino_temp_safety_check_workflow backend sink date phonenumber none).prompts
    ∧ (dino_temp_safety_check_workflow_tool backend date).email =
      (dino_temp_safety_check_workflow backend sink date phonenumber none).email :=
  ⟨rfl, rfl⟩

/-- C5: a dispatch-loop run whose reasoning backend never produces a
final answer exhausts the iteration budget and fails with
MaxIterationsExceeded; it never returns a partial transcript or partial
output as if it were a final answer. -/
theorem runDispatchLoop_cap (next_step : String → AgentAction)
    (invokeTool : String → String → String) (n : ℕ) (transcript : String)
    (h : ∀ t a, next_step t ≠ .finish a) :
    runDispatchLoop next_step invokeTool n transcript = .error .maxIterationsExceeded := by
  induction n generalizing transcript with
  | zero => rfl
  | succ k ih =>
    unfold runDispatchLoop
    rcases hs : next_step transcript with a | ⟨tn, ti⟩
    · exact absurd hs (h transcript a)
    · exact ih (transcript ++ invokeTool tn ti)

/-- Witness for `runDispatchLoop_cap`: a backend that always selects a
tool exhausts a budget of 15 iterations. -/
theorem runDispatchLoop_cap_witness :
    runDispatchLoop (fun _ => .act "query_dynamodb_dino_tbl_by_date" "3/19/2024")
      (fun _ _ => "observation") 15 "" = .error .maxIterationsExceeded :=
  runDispatchLoop_cap _ _ 15 "" (fun _ _ hfin => AgentAction.noConfusion hfin)

/-- C9: registering a tool whose name collides with an already registered
tool fails with DuplicateNameError, and resolving a name that was never
registered fails with UnknownToolError. -/
theorem toolRegistry_spec (reg reg2 : List AgentTool) (t u : AgentTool) (n : String) :
    (registerTool reg t = .ok reg2 → u.name = t.name →
      registerTool reg2 u = .error .duplicateNameError)
    ∧ ((∀ v ∈ reg, v.name ≠ n) → resolveTool reg n = .error .unknownToolError) := by
  constructor
  · intro hok hname
    unfold registerTool at hok
    by_cases hcoll : (reg.any (fun v => v.name == t.name)) = true
    · rw [if_pos hcoll] at hok
      exact absurd hok (by simp)
    · rw [if_neg hcoll] at hok
      have hreg2 : reg ++ [t] = reg2 := by
        injection hok
      have hco : (reg2.any (fun v => v.name == u.name)) = true := by
        apply List.any_eq_true.mpr
        refine ⟨t, ?_, ?_⟩
        · rw [← hreg2]
          simp
        · rw [hname]
          simp
      unfold registerTool
      rw [if_pos hco]
  · intro hnone
    have hfind : reg.find? (fun v => v.name == n) = none := by
      apply List.find?_eq_none.mpr
      intro v hv
      simpa using hnone v hv
    unfold resolveTool
    rw [hfind]

/-- Witness for `toolRegistry_spec`: a concrete collision and a concrete
unknown name. -/
theorem toolRegistry_spec_witness :
    registerTool [AgentTool.mk "get_weather" "w"] (AgentTool.mk "get_weather" "x") =
      .error .duplicateNameError
    ∧ resolveTool [AgentTool.mk "get_weather" "w"] "send_sms" = .error .unknownToolError :=
  ⟨(toolRegistry_spec [] [AgentTool.mk "get_weather" "w"] (AgentTool.mk "get_weather" "w")
      (AgentTool.mk "get_weather" "x") "send_sms").1 rfl rfl,
   (toolRegistry_spec [AgentTool.mk "get_weather" "w"] [] (AgentTool.mk "get_weather" "w")
      (AgentTool.mk "get_weather" "w") "send_sms").2 (by decide)⟩

end LlmChatbot
